import Mathlib

/-
Shallow embedding of the tool-dispatch layer of the Kubernetes/OpenShift
assistant in main.py.

Modelling conventions:
  - A Python bytes value and a Python str value are distinct runtime objects;
    both are carried by the inductive PyVal, tagged with their type.
  - subprocess.run is modelled by an environment function from a SpawnRequest
    (command form plus timeout) to an ExecOutcome: either a CompletedProcess
    or a timeout.  A timeout makes subprocess.run raise TimeoutExpired, which
    the embedding represents as an Except.error.
  - shutil.which is modelled by the environment field avail.
  - Each tool handler returns the pair of its Python result (normal return or
    uncaught exception) and the list of subprocess spawns it performed, in
    order, so that claims about which processes are spawned are statable.
-/

/-- Python exceptions that can escape the code under study. -/
inductive PyExc where
  | timeoutExpired
  | indexError
deriving DecidableEq

/-- Python runtime values returned by the tool handlers, tagged with their
runtime type: a bytes object, a str object, None, or a list of str. -/
inductive PyVal where
  | bytes (s : String)
  | str (s : String)
  | pyNone
  | list (xs : List String)
deriving DecidableEq

/-- The result of subprocess.run when the process finished before the
timeout: captured stdout, captured stderr and the exit status. -/
structure CompletedProcess where
  stdout : String
  stderr : String
  returncode : Int
deriving DecidableEq

/-- The two forms a command is given in: an argument vector, or a single
string handed to the shell (subprocess.run with shell=True). -/
inductive Command where
  | argv (args : List String)
  | shell (line : String)
deriving DecidableEq

/-- One subprocess.run invocation: the command and its timeout in seconds. -/
structure SpawnRequest where
  command : Command
  timeout : Nat
deriving DecidableEq

/-- What happens to a spawned process: it completes, or it exceeds the
timeout. -/
inductive ExecOutcome where
  | completed (p : CompletedProcess)
  | timedOut
deriving DecidableEq

/-- The external world a handler runs against: which executables PATH
resolution finds, and what each spawned process does. -/
structure Env where
  avail : String → Bool
  exec : SpawnRequest → ExecOutcome

/-- A handler step: the Python-level result (normal value or uncaught
exception) together with the subprocess spawns performed, in order. -/
abbrev ToolStep := Except PyExc PyVal × List SpawnRequest

/-- is_command_available from main.py: shutil.which(command) is not None. -/
def is_command_available (env : Env) (command : String) : Bool :=
  env.avail command

/-- subprocess.run with a timeout: a completed process is returned, a
timeout raises TimeoutExpired. -/
def subprocess_run (env : Env) (req : SpawnRequest) : Except PyExc CompletedProcess :=
  match env.exec req with
  | .completed p => .ok p
  | .timedOut => .error .timeoutExpired

/-- bytes.splitlines: split on LF, CR and CRLF, no trailing empty line. -/
def splitlinesAux : List Char → List Char → List String
  | [], [] => []
  | [], acc => [ String.mk acc.reverse ]
  | '\r' :: '\n' :: rest, acc => String.mk acc.reverse :: splitlinesAux rest []
  | '\n' :: rest, acc => String.mk acc.reverse :: splitlinesAux rest []
  | '\r' :: rest, acc => String.mk acc.reverse :: splitlinesAux rest []
  | c :: rest, acc => splitlinesAux rest (c :: acc)

/-- bytes.splitlines on captured output. -/
def splitlines (s : String) : List String :=
  splitlinesAux s.data []

/-- Error text returned when the oc executable is missing. -/
def oc_missing_msg : String := "Error: \x27oc\x27 command not found in PATH"

/-- Error text returned by get_pod_status when oc or yq is missing. -/
def oc_yq_missing_msg : String :=
  "Error: Required commands (\x27oc\x27 and/or \x27yq\x27) not found in PATH"

/-- Error text returned when the kube-health executable is missing. -/
def kube_health_missing_msg : String :=
  "Error: \x27kube-health\x27 command not found in PATH"

/-- Error text returned by get_object_health for near-empty output. -/
def object_not_found_msg : String :=
  "Error: The object you are looking for does not exist"

/-- The argv and timeout used by get_namespaces. -/
def get_namespaces_req : SpawnRequest :=
  ⟨.argv [ "oc", "get", "namespaces" ], 2⟩

/-- The argv and timeout used by get_object_cluster_wide_list. -/
def get_object_cluster_wide_list_req (kind : String) : SpawnRequest :=
  ⟨.argv [ "oc", "get", kind, "-A", "-o", "name" ], 2⟩

/-- The argv and timeout used by get_object_namespace_list. -/
def get_object_namespace_list_req (kind ns : String) : SpawnRequest :=
  ⟨.argv [ "oc", "get", kind, "-n", ns, "-o", "name" ], 2⟩

/-- The argv and timeout used by get_nonrunning_pods. -/
def get_nonrunning_pods_req : SpawnRequest :=
  ⟨.argv [ "oc", "get", "pods", "-A", "--field-selector",
           "status.phase!=Running", "-o",
           "custom-columns=NAMESPACE:.metadata.namespace,NAME:.metadata.name" ], 2⟩

/-- The argv and timeout used by get_object_details. -/
def get_object_details_req (ns kind name : String) : SpawnRequest :=
  ⟨.argv [ "oc", "get", kind, "-n", ns, name, "-o", "yaml" ], 2⟩

/-- The argv and timeout used by get_pod_list. -/
def get_pod_list_req (ns : String) : SpawnRequest :=
  ⟨.argv [ "oc", "get", "pods", "-n", ns, "-o", "name" ], 2⟩

/-- The f-string handed to the shell by get_pod_status: the namespace and
pod arguments are concatenated in verbatim, with no quoting or escaping. -/
def get_pod_status_cmd (ns pod : String) : String :=
  "oc get pod -n " ++ ns ++ " " ++ pod ++
    " -o jsonpath=\x27\x7b.status\x7d\x27 | yq -p json -o yaml"

/-- The shell request and timeout used by get_pod_status. -/
def get_pod_status_req (ns pod : String) : SpawnRequest :=
  ⟨.shell (get_pod_status_cmd ns pod), 2⟩

/-- The f-string handed to the shell by get_object_health: kind, name and
the optional namespace are concatenated in verbatim, with no quoting. -/
def get_object_health_cmd (kind name : String) (ns? : Option String) : String :=
  match ns? with
  | Option.none => "kube-health -H " ++ kind ++ "/" ++ name
  | Option.some ns => "kube-health -n " ++ ns ++ " -H " ++ kind ++ "/" ++ name

/-- The shell request and timeout used by get_object_health. -/
def get_object_health_req (kind name : String) (ns? : Option String) : SpawnRequest :=
  ⟨.shell (get_object_health_cmd kind name ns?), 2⟩

/-- get_namespaces from main.py. -/
def get_namespaces (env : Env) : ToolStep :=
  if is_command_available env "oc" = false then
    (.ok (.str oc_missing_msg), [])
  else
    match subprocess_run env get_namespaces_req with
    | .ok output => (.ok (.bytes output.stdout), [ get_namespaces_req ])
    | .error e => (.error e, [ get_namespaces_req ])

/-- get_object_cluster_wide_list from main.py. -/
def get_object_cluster_wide_list (env : Env) (kind : String) : ToolStep :=
  if is_command_available env "oc" = false then
    (.ok (.str oc_missing_msg), [])
  else
    match subprocess_run env (get_object_cluster_wide_list_req kind) with
    | .ok output => (.ok (.bytes output.stdout), [ get_object_cluster_wide_list_req kind ])
    | .error e => (.error e, [ get_object_cluster_wide_list_req kind ])

/-- get_object_namespace_list from main.py. -/
def get_object_namespace_list (env : Env) (kind ns : String) : ToolStep :=
  if is_command_available env "oc" = false then
    (.ok (.str oc_missing_msg), [])
  else
    match subprocess_run env (get_object_namespace_list_req kind ns) with
    | .ok output => (.ok (.bytes output.stdout), [ get_object_namespace_list_req kind ns ])
    | .error e => (.error e, [ get_object_namespace_list_req kind ns ])

/-- get_nonrunning_pods from main.py. -/
def get_nonrunning_pods (env : Env) : ToolStep :=
  if is_command_available env "oc" = false then
    (.ok (.str oc_missing_msg), [])
  else
    match subprocess_run env get_nonrunning_pods_req with
    | .ok output => (.ok (.bytes output.stdout), [ get_nonrunning_pods_req ])
    | .error e => (.error e, [ get_nonrunning_pods_req ])

/-- get_object_details from main.py. -/
def get_object_details (env : Env) (ns kind name : String) : ToolStep :=
  if is_command_available env "oc" = false then
    (.ok (.str oc_missing_msg), [])
  else
    match subprocess_run env (get_object_details_req ns kind name) with
    | .ok output => (.ok (.bytes output.stdout), [ get_object_details_req ns kind name ])
    | .error e => (.error e, [ get_object_details_req ns kind name ])

/-- get_pod_list from main.py. -/
def get_pod_list (env : Env) (ns : String) : ToolStep :=
  if is_command_available env "oc" = false then
    (.ok (.str oc_missing_msg), [])
  else
    match subprocess_run env (get_pod_list_req ns) with
    | .ok output => (.ok (.bytes output.stdout), [ get_pod_list_req ns ])
    | .error e => (.error e, [ get_pod_list_req ns ])

/-- get_pod_status from main.py: checks oc and yq, then pipes oc through yq
in a single shell string. -/
def get_pod_status (env : Env) (ns pod : String) : ToolStep :=
  if is_command_available env "oc" = false ∨ is_command_available env "yq" = false then
    (.ok (.str oc_yq_missing_msg), [])
  else
    match subprocess_run env (get_pod_status_req ns pod) with
    | .ok output => (.ok (.bytes output.stdout), [ get_pod_status_req ns pod ])
    | .error e => (.error e, [ get_pod_status_req ns pod ])

/-- get_object_health from main.py: runs kube-health through the shell, then
applies the line-count heuristic to the captured stdout. -/
def get_object_health (env : Env) (kind name : String) (ns? : Option String) : ToolStep :=
  if is_command_available env "kube-health" = false then
    (.ok (.str kube_health_missing_msg), [])
  else
    match subprocess_run env (get_object_health_req kind name ns?) with
    | .error e => (.error e, [ get_object_health_req kind name ns? ])
    | .ok output =>
      if (splitlines output.stdout).length < 2 then
        (.ok (.str object_not_found_msg), [ get_object_health_req kind name ns? ])
      else
        (.ok (.bytes output.stdout), [ get_object_health_req kind name ns? ])

/-- One entry of the JSON array returned by the similar_metrics service; the
code only reads its series field. -/
structure SimilarMetricsEntry where
  series : List String
deriving DecidableEq

/-- The outcome of the HTTP GET in get_existing_metrics: a 2xx response with
a decoded JSON array, a network error (httpx.RequestError), or a non-2xx
status (httpx.HTTPStatusError raised by raise_for_status). -/
inductive HttpResult where
  | success (data : List SimilarMetricsEntry)
  | requestError (msg : String)
  | statusError (code : Nat) (text : String)
deriving DecidableEq

/-- get_existing_metrics from main.py: the two httpx exception classes are
caught and fall through to an implicit return None; on a successful
response the code evaluates data[0].series, so an empty array raises
IndexError, which no except clause catches. -/
def get_existing_metrics (resp : HttpResult) : Except PyExc PyVal :=
  match resp with
  | .success data =>
    match data with
    | [] => .error .indexError
    | entry :: _ => .ok (.list entry.series)
  | .requestError _ => .ok .pyNone
  | .statusError _ _ => .ok .pyNone

/-- The agents constructed in main.py. -/
inductive AgentName where
  | routing_agent
  | knowledge_agent
  | retrieval_agent
  | metrics_agent
deriving DecidableEq

/-- Modelled from the spec: the UsageStats accumulator (pydantic_ai Usage)
attached to one top-level query, whose counters are only ever incremented
by the runtime.  Its accumulation code lives in the agent framework, not in
main.py, so only its monotone-increment contract is modelled here. -/
structure Usage where
  requests : Nat
  request_tokens : Nat
  response_tokens : Nat
  total_tokens : Nat
deriving DecidableEq

/-- Componentwise addition of usage counters. -/
def Usage.add (u v : Usage) : Usage :=
  ⟨u.requests + v.requests, u.request_tokens + v.request_tokens,
   u.response_tokens + v.response_tokens, u.total_tokens + v.total_tokens⟩

/-- Modelled from the spec: the runtime folds the non-negative usage delta
of each nested step into the shared accumulator. -/
def accumulateUsage (u : Usage) (deltas : List Usage) : Usage :=
  List.foldl Usage.add u deltas

/-- The tool-call context handed to a routing-agent tool; usageRef is the
object identity of the accumulator reached through ctx.usage. -/
structure RunContext where
  usageRef : Nat

/-- The nested agent run a routing tool performs: which sub-agent, the
query it forwards, and the identity of the usage accumulator it passes. -/
structure AgentRunCall where
  agent : AgentName
  query : String
  usageRef : Nat
deriving DecidableEq

/-- knowledge_tool from main.py: awaits knowledge_agent.run(original_query,
usage=ctx.usage). -/
def knowledge_tool (ctx : RunContext) (original_query : String) : AgentRunCall :=
  ⟨.knowledge_agent, original_query, ctx.usageRef⟩

/-- retrieval_tool from main.py: awaits retrieval_agent.run(original_query,
usage=ctx.usage). -/
def retrieval_tool (ctx : RunContext) (original_query : String) : AgentRunCall :=
  ⟨.retrieval_agent, original_query, ctx.usageRef⟩

/-- metrics_tool from main.py: awaits metrics_agent.run(original_query,
usage=ctx.usage). -/
def metrics_tool (ctx : RunContext) (original_query : String) : AgentRunCall :=
  ⟨.metrics_agent, original_query, ctx.usageRef⟩

/-- Whether a command is given as a shell-interpreted string. -/
def Command.isShellCmd : Command → Bool
  | .argv _ => false
  | .shell _ => true

/-- Whether a string contains the shell pipe character. -/
def hasPipeChar (s : String) : Bool :=
  s.data.any (fun c => c == '|')

/-- Whether a command pipes its output through a secondary filter: only a
shell string containing a pipe does. -/
def Command.pipesThroughFilter : Command → Bool
  | .argv _ => false
  | .shell s => hasPipeChar s

/-- The shell template stated in the claim for get_pod_status, arguments
substituted verbatim. -/
def spec_pod_status_template (ns pod : String) : String :=
  "oc get pod -n " ++ ns ++ " " ++ pod ++
    " -o jsonpath=\x27\x7b.status\x7d\x27 | yq -p json -o yaml"

/-- The shell template stated in the claim for get_object_health, arguments
substituted verbatim. -/
def spec_health_template (kind name : String) (ns? : Option String) : String :=
  match ns? with
  | Option.none => "kube-health -H " ++ kind ++ "/" ++ name
  | Option.some ns => "kube-health -n " ++ ns ++ " -H " ++ kind ++ "/" ++ name

/-- An environment in which every executable resolves and every spawned
process exceeds its timeout. -/
def env_timeout : Env :=
  ⟨fun _ => true, fun _ => .timedOut⟩

/-- An environment in which no executable resolves on PATH. -/
def env_no_cmds : Env :=
  ⟨fun _ => false, fun _ => .timedOut⟩

/-- An environment in which every executable resolves and every spawned
process fails with exit status 1, stderr text, and non-empty stdout. -/
def env_exit1 : Env :=
  ⟨fun _ => true, fun _ => .completed ⟨"namespace/default\n", "warning: boom", 1⟩⟩

/-- An environment in which every executable resolves and every spawned
process exits 1 with empty stdout. -/
def env_exit1_empty : Env :=
  ⟨fun _ => true, fun _ => .completed ⟨"", "error text on stderr", 1⟩⟩

/-- An environment in which every executable resolves and every spawned
process succeeds printing two lines. -/
def env_two_lines : Env :=
  ⟨fun _ => true, fun _ => .completed ⟨"HEADER\nnode/worker1 Healthy\n", "", 0⟩⟩

/-- Whether a Python value is a str object. -/
def PyVal.isStr : PyVal → Bool
  | .str _ => true
  | _ => false

/-- Appending strings appends their character data. -/
theorem str_data_append (a b : String) : (a ++ b).data = a.data ++ b.data := by
  cases a; cases b; rfl

/-- String append is associative. -/
theorem str_append_assoc (a b c : String) : a ++ b ++ c = a ++ (b ++ c) := by
  cases a; cases b; cases c
  apply congrArg String.mk
  simp [str_data_append]

/-- The shell string built by get_pod_status always contains a pipe. -/
theorem pod_status_cmd_has_pipe (ns pod : String) :
    hasPipeChar (get_pod_status_cmd ns pod) = true := by
  have hmem : '|' ∈ (get_pod_status_cmd ns pod).data := by
    simp only [get_pod_status_cmd, str_data_append, List.mem_append]
    refine Or.inr ?_
    decide
  exact List.any_eq_true.mpr ⟨'|', hmem, by decide⟩

/-- Usage counters never decrease under accumulation. -/
theorem accumulateUsage_le (ds : List Usage) (u : Usage) :
    u.requests ≤ (accumulateUsage u ds).requests ∧
    u.request_tokens ≤ (accumulateUsage u ds).request_tokens ∧
    u.response_tokens ≤ (accumulateUsage u ds).response_tokens ∧
    u.total_tokens ≤ (accumulateUsage u ds).total_tokens := by
  induction ds generalizing u with
  | nil => exact ⟨Nat.le_refl _, Nat.le_refl _, Nat.le_refl _, Nat.le_refl _⟩
  | cons d ds ih =>
    have h := ih (u.add d)
    exact ⟨Nat.le_trans (Nat.le_add_right _ _) h.1,
           Nat.le_trans (Nat.le_add_right _ _) h.2.1,
           Nat.le_trans (Nat.le_add_right _ _) h.2.2.1,
           Nat.le_trans (Nat.le_add_right _ _) h.2.2.2⟩

/-- The subprocess trace of get_namespaces is empty or its one request. -/
theorem get_namespaces_snd (env : Env) :
    (get_namespaces env).snd = [] ∨
    (get_namespaces env).snd = [ get_namespaces_req ] := by
  unfold get_namespaces
  split
  · exact Or.inl rfl
  · split <;> exact Or.inr rfl

/-- The subprocess trace of get_object_cluster_wide_list is empty or its one
request. -/
theorem get_object_cluster_wide_list_snd (env : Env) (kind : String) :
    (get_object_cluster_wide_list env kind).snd = [] ∨
    (get_object_cluster_wide_list env kind).snd = [ get_object_cluster_wide_list_req kind ] := by
  unfold get_object_cluster_wide_list
  split
  · exact Or.inl rfl
  · split <;> exact Or.inr rfl

/-- The subprocess trace of get_object_namespace_list is empty or its one
request. -/
theorem get_object_namespace_list_snd (env : Env) (kind ns : String) :
    (get_object_namespace_list env kind ns).snd = [] ∨
    (get_object_namespace_list env kind ns).snd = [ get_object_namespace_list_req kind ns ] := by
  unfold get_object_namespace_list
  split
  · exact Or.inl rfl
  · split <;> exact Or.inr rfl

/-- The subprocess trace of get_nonrunning_pods is empty or its one request. -/
theorem get_nonrunning_pods_snd (env : Env) :
    (get_nonrunning_pods env).snd = [] ∨
    (get_nonrunning_pods env).snd = [ get_nonrunning_pods_req ] := by
  unfold get_nonrunning_pods
  split
  · exact Or.inl rfl
  · split <;> exact Or.inr rfl

/-- The subprocess trace of get_object_details is empty or its one request. -/
theorem get_object_details_snd (env : Env) (ns kind name : String) :
    (get_object_details env ns kind name).snd = [] ∨
    (get_object_details env ns kind name).snd = [ get_object_details_req ns kind name ] := by
  unfold get_object_details
  split
  · exact Or.inl rfl
  · split <;> exact Or.inr rfl

/-- The subprocess trace of get_pod_list is empty or its one request. -/
theorem get_pod_list_snd (env : Env) (ns : String) :
    (get_pod_list env ns).snd = [] ∨
    (get_pod_list env ns).snd = [ get_pod_list_req ns ] := by
  unfold get_pod_list
  split
  · exact Or.inl rfl
  · split <;> exact Or.inr rfl

/-- The subprocess trace of get_pod_status is empty or its one request. -/
theorem get_pod_status_snd (env : Env) (ns pod : String) :
    (get_pod_status env ns pod).snd = [] ∨
    (get_pod_status env ns pod).snd = [ get_pod_status_req ns pod ] := by
  unfold get_pod_status
  split
  · exact Or.inl rfl
  · split <;> exact Or.inr rfl

/-- The subprocess trace of get_object_health is empty or its one request. -/
theorem get_object_health_snd (env : Env) (kind name : String) (ns? : Option String) :
    (get_object_health env kind name ns?).snd = [] ∨
    (get_object_health env kind name ns?).snd = [ get_object_health_req kind name ns? ] := by
  unfold get_object_health
  split
  · exact Or.inl rfl
  · split
    · exact Or.inr rfl
    · split <;> exact Or.inr rfl

/-- When oc and yq resolve, get_pod_status spawns exactly its one shell
request. -/
theorem get_pod_status_snd_avail (env : Env) (ns pod : String)
    (hoc : env.avail "oc" = true) (hyq : env.avail "yq" = true) :
    (get_pod_status env ns pod).snd = [ get_pod_status_req ns pod ] := by
  unfold get_pod_status
  split
  · next hcond =>
      exfalso
      simp [is_command_available, hoc, hyq] at hcond
  · split <;> rfl

/-- When kube-health resolves, get_object_health spawns exactly its one
shell request. -/
theorem get_object_health_snd_avail (env : Env) (kind name : String)
    (ns? : Option String) (h : env.avail "kube-health" = true) :
    (get_object_health env kind name ns?).snd = [ get_object_health_req kind name ns? ] := by
  unfold get_object_health
  split
  · next hcond =>
      exfalso
      simp [is_command_available, h] at hcond
  · split
    · rfl
    · split <;> rfl

/-- Claim C1, counterexample: with every command on PATH and the spawned
process exceeding its 2-second bound, get_namespaces does not return a
user-facing text result: the TimeoutExpired exception escapes the handler. -/
theorem C1_timeout_counterexample :
    (get_namespaces env_timeout).fst = Except.error PyExc.timeoutExpired ∧
    (get_namespaces env_timeout).fst.map PyVal.isStr = Except.error PyExc.timeoutExpired := by
  exact ⟨rfl, rfl⟩

/-- Claim C1 (amended): for every tool handler that spawns an external
command, if the external call exceeds its timeout bound, subprocess.run
raises TimeoutExpired and no handler catches it, so the exception
propagates out of the handler to the caller; no user-facing unavailable
text is produced for a timeout. -/
theorem C1_timeout_propagates_amended (env : Env) (kind name ns pod : String)
    (ns? : Option String)
    (havail : ∀ c, env.avail c = true)
    (htimeout : ∀ r, env.exec r = ExecOutcome.timedOut) :
    (get_namespaces env).fst = Except.error PyExc.timeoutExpired ∧
    (get_object_cluster_wide_list env kind).fst = Except.error PyExc.timeoutExpired ∧
    (get_object_namespace_list env kind ns).fst = Except.error PyExc.timeoutExpired ∧
    (get_nonrunning_pods env).fst = Except.error PyExc.timeoutExpired ∧
    (get_object_details env ns kind name).fst = Except.error PyExc.timeoutExpired ∧
    (get_pod_list env ns).fst = Except.error PyExc.timeoutExpired ∧
    (get_pod_status env ns pod).fst = Except.error PyExc.timeoutExpired ∧
    (get_object_health env kind name ns?).fst = Except.error PyExc.timeoutExpired := by
  simp [get_namespaces, get_object_cluster_wide_list, get_object_namespace_list,
        get_nonrunning_pods, get_object_details, get_pod_list, get_pod_status,
        get_object_health, is_command_available, subprocess_run, havail, htimeout]

/-- Witness for C1_timeout_propagates_amended at a concrete environment. -/
theorem C1_timeout_propagates_witness :
    (get_namespaces env_timeout).fst = Except.error PyExc.timeoutExpired ∧
    (get_object_cluster_wide_list env_timeout "node").fst = Except.error PyExc.timeoutExpired ∧
    (get_object_namespace_list env_timeout "node" "default").fst = Except.error PyExc.timeoutExpired ∧
    (get_nonrunning_pods env_timeout).fst = Except.error PyExc.timeoutExpired ∧
    (get_object_details env_timeout "default" "node" "worker1").fst = Except.error PyExc.timeoutExpired ∧
    (get_pod_list env_timeout "default").fst = Except.error PyExc.timeoutExpired ∧
    (get_pod_status env_timeout "default" "mypod").fst = Except.error PyExc.timeoutExpired ∧
    (get_object_health env_timeout "node" "worker1" Option.none).fst = Except.error PyExc.timeoutExpired :=
  C1_timeout_propagates_amended env_timeout "node" "worker1" "default" "mypod"
    Option.none (fun _ => rfl) (fun _ => rfl)

/-- Claim C2: get_existing_metrics never raises on network or HTTP-status
failure (those are caught and None is returned), but when the service
responds with an empty JSON array the subscript data[0] raises an uncaught
IndexError instead of returning an absent/empty result. -/
theorem C2_empty_array_index_error :
    get_existing_metrics (HttpResult.success []) = Except.error PyExc.indexError ∧
    get_existing_metrics (HttpResult.requestError "connection refused") = Except.ok PyVal.pyNone ∧
    get_existing_metrics (HttpResult.statusError 503 "service unavailable") = Except.ok PyVal.pyNone :=
  ⟨rfl, rfl, rfl⟩

/-- Claim C3: whenever the external command a handler depends on does not
resolve on PATH, the handler returns the structured command-not-found str,
raises nothing, and spawns no subprocess at all. -/
theorem C3_command_unavailable_no_spawn (env : Env) (kind name ns pod : String)
    (ns? : Option String) :
    (env.avail "oc" = false →
      get_namespaces env = (Except.ok (PyVal.str oc_missing_msg), []) ∧
      get_object_cluster_wide_list env kind = (Except.ok (PyVal.str oc_missing_msg), []) ∧
      get_object_namespace_list env kind ns = (Except.ok (PyVal.str oc_missing_msg), []) ∧
      get_nonrunning_pods env = (Except.ok (PyVal.str oc_missing_msg), []) ∧
      get_object_details env ns kind name = (Except.ok (PyVal.str oc_missing_msg), []) ∧
      get_pod_list env ns = (Except.ok (PyVal.str oc_missing_msg), []) ∧
      get_pod_status env ns pod = (Except.ok (PyVal.str oc_yq_missing_msg), [])) ∧
    (env.avail "yq" = false →
      get_pod_status env ns pod = (Except.ok (PyVal.str oc_yq_missing_msg), [])) ∧
    (env.avail "kube-health" = false →
      get_object_health env kind name ns? = (Except.ok (PyVal.str kube_health_missing_msg), [])) := by
  refine ⟨fun h => ?_, fun h => ?_, fun h => ?_⟩ <;>
    simp [get_namespaces, get_object_cluster_wide_list, get_object_namespace_list,
          get_nonrunning_pods, get_object_details, get_pod_list, get_pod_status,
          get_object_health, is_command_available, h]

/-- Witness for C3_command_unavailable_no_spawn on an empty PATH. -/
theorem C3_command_unavailable_no_spawn_witness :
    get_namespaces env_no_cmds = (Except.ok (PyVal.str oc_missing_msg), []) ∧
    get_pod_status env_no_cmds "default" "mypod" = (Except.ok (PyVal.str oc_yq_missing_msg), []) ∧
    get_object_health env_no_cmds "node" "worker1" Option.none =
      (Except.ok (PyVal.str kube_health_missing_msg), []) :=
  ⟨((C3_command_unavailable_no_spawn env_no_cmds "node" "worker1" "default" "mypod" Option.none).1 rfl).1,
   (C3_command_unavailable_no_spawn env_no_cmds "node" "worker1" "default" "mypod" Option.none).2.1 rfl,
   (C3_command_unavailable_no_spawn env_no_cmds "node" "worker1" "default" "mypod" Option.none).2.2 rfl⟩

/-- Claim C4: when the kube-health command completes, get_object_health
returns the distinct object-not-found error str if the captured output has
fewer than two lines, and the raw captured output unchanged (as bytes) if
it has two or more. -/
theorem C4_health_line_count (env : Env) (kind name : String) (ns? : Option String)
    (p : CompletedProcess)
    (havail : env.avail "kube-health" = true)
    (hexec : env.exec (get_object_health_req kind name ns?) = ExecOutcome.completed p) :
    ((splitlines p.stdout).length < 2 →
      get_object_health env kind name ns? =
        (Except.ok (PyVal.str object_not_found_msg), [ get_object_health_req kind name ns? ])) ∧
    (2 ≤ (splitlines p.stdout).length →
      get_object_health env kind name ns? =
        (Except.ok (PyVal.bytes p.stdout), [ get_object_health_req kind name ns? ])) := by
  constructor
  · intro hlen
    simp [get_object_health, is_command_available, havail, subprocess_run, hexec, hlen]
  · intro hlen
    have hlt : ¬ (splitlines p.stdout).length < 2 := Nat.not_lt.mpr hlen
    simp [get_object_health, is_command_available, havail, subprocess_run, hexec, hlt]

/-- Witness for C4_health_line_count: empty output yields the not-found
text, a two-line output is forwarded unchanged. -/
theorem C4_health_line_count_witness :
    get_object_health env_exit1_empty "node" "worker1" Option.none =
      (Except.ok (PyVal.str object_not_found_msg), [ get_object_health_req "node" "worker1" Option.none ]) ∧
    get_object_health env_two_lines "node" "worker1" Option.none =
      (Except.ok (PyVal.bytes "HEADER\nnode/worker1 Healthy\n"),
       [ get_object_health_req "node" "worker1" Option.none ]) :=
  ⟨(C4_health_line_count env_exit1_empty "node" "worker1" Option.none
      ⟨"", "error text on stderr", 1⟩ rfl rfl).1 (by decide),
   (C4_health_line_count env_two_lines "node" "worker1" Option.none
      ⟨"HEADER\nnode/worker1 Healthy\n", "", 0⟩ rfl rfl).2 (by decide)⟩

/-- Claim C5, evaluated at the failing input: the handlers return the
captured stdout of the completed process as a Python bytes object, not a
str as the declared return type states; the handler indeed does not raise
on a non-zero exit status (env_exit1 exits 1). -/
theorem C5_returns_bytes_not_str :
    (get_namespaces env_exit1).fst = Except.ok (PyVal.bytes "namespace/default\n") ∧
    (get_namespaces env_exit1).fst.map PyVal.isStr = Except.ok false ∧
    (get_object_details env_exit1 "default" "pod" "mypod").fst =
      Except.ok (PyVal.bytes "namespace/default\n") ∧
    (get_object_details env_exit1 "default" "pod" "mypod").fst.map PyVal.isStr = Except.ok false :=
  ⟨rfl, rfl, rfl, rfl⟩

/-- Claim C6, counterexample: get_object_health hands the shell a single
command string that pipes through no secondary filter, so shell-string form
is not used only when piping. -/
theorem C6_shell_without_pipe_counterexample :
    (get_object_health env_two_lines "node" "worker1" Option.none).snd =
      [ ⟨Command.shell "kube-health -H node/worker1", 2⟩ ] ∧
    Command.isShellCmd (Command.shell "kube-health -H node/worker1") = true ∧
    Command.pipesThroughFilter (Command.shell "kube-health -H node/worker1") = false := by
  refine ⟨?_, rfl, by decide⟩
  decide

/-- Claim C6 (amended): every subprocess invocation carries the fixed
2-second timeout; the six list/detail retrieval handlers always use the
argument-vector form; get_pod_status uses a shell string that does pipe
through yq; get_object_health also uses a shell string although it runs a
single command with no pipe. -/
theorem C6_command_forms_amended (env : Env) (kind name ns pod : String)
    (ns? : Option String) :
    (∀ r, r ∈ (get_namespaces env).snd →
      r.timeout = 2 ∧ r.command.isShellCmd = false) ∧
    (∀ r, r ∈ (get_object_cluster_wide_list env kind).snd →
      r.timeout = 2 ∧ r.command.isShellCmd = false) ∧
    (∀ r, r ∈ (get_object_namespace_list env kind ns).snd →
      r.timeout = 2 ∧ r.command.isShellCmd = false) ∧
    (∀ r, r ∈ (get_nonrunning_pods env).snd →
      r.timeout = 2 ∧ r.command.isShellCmd = false) ∧
    (∀ r, r ∈ (get_object_details env ns kind name).snd →
      r.timeout = 2 ∧ r.command.isShellCmd = false) ∧
    (∀ r, r ∈ (get_pod_list env ns).snd →
      r.timeout = 2 ∧ r.command.isShellCmd = false) ∧
    (∀ r, r ∈ (get_pod_status env ns pod).snd →
      r.timeout = 2 ∧ r.command.isShellCmd = true ∧ r.command.pipesThroughFilter = true) ∧
    (∀ r, r ∈ (get_object_health env kind name ns?).snd →
      r.timeout = 2 ∧ r.command.isShellCmd = true) := by
  refine ⟨fun r hr => ?_, fun r hr => ?_, fun r hr => ?_, fun r hr => ?_,
          fun r hr => ?_, fun r hr => ?_, fun r hr => ?_, fun r hr => ?_⟩
  · rcases get_namespaces_snd env with h | h <;> rw [h] at hr
    · cases hr
    · rw [List.mem_singleton] at hr
      subst hr
      exact ⟨rfl, rfl⟩
  · rcases get_object_cluster_wide_list_snd env kind with h | h <;> rw [h] at hr
    · cases hr
    · rw [List.mem_singleton] at hr
      subst hr
      exact ⟨rfl, rfl⟩
  · rcases get_object_namespace_list_snd env kind ns with h | h <;> rw [h] at hr
    · cases hr
    · rw [List.mem_singleton] at hr
      subst hr
      exact ⟨rfl, rfl⟩
  · rcases get_nonrunning_pods_snd env with h | h <;> rw [h] at hr
    · cases hr
    · rw [List.mem_singleton] at hr
      subst hr
      exact ⟨rfl, rfl⟩
  · rcases get_object_details_snd env ns kind name with h | h <;> rw [h] at hr
    · cases hr
    · rw [List.mem_singleton] at hr
      subst hr
      exact ⟨rfl, rfl⟩
  · rcases get_pod_list_snd env ns with h | h <;> rw [h] at hr
    · cases hr
    · rw [List.mem_singleton] at hr
      subst hr
      exact ⟨rfl, rfl⟩
  · rcases get_pod_status_snd env ns pod with h | h <;> rw [h] at hr
    · cases hr
    · rw [List.mem_singleton] at hr
      subst hr
      exact ⟨rfl, rfl, pod_status_cmd_has_pipe ns pod⟩
  · rcases get_object_health_snd env kind name ns? with h | h <;> rw [h] at hr
    · cases hr
    · rw [List.mem_singleton] at hr
      subst hr
      exact ⟨rfl, rfl⟩

/-- Witness for C6_command_forms_amended at a concrete environment. -/
theorem C6_command_forms_witness :
    (get_namespaces env_two_lines).snd = [ get_namespaces_req ] ∧
    get_namespaces_req.timeout = 2 ∧ get_namespaces_req.command.isShellCmd = false ∧
    (get_pod_status env_two_lines "default" "mypod").snd = [ get_pod_status_req "default" "mypod" ] ∧
    (get_pod_status_req "default" "mypod").timeout = 2 ∧
    (get_pod_status_req "default" "mypod").command.pipesThroughFilter = true :=
  ⟨by decide, by decide, by decide, by decide, by decide,
   (C6_command_forms_amended env_two_lines "node" "worker1" "default" "mypod"
      Option.none).2.2.2.2.2.2.1 (get_pod_status_req "default" "mypod") (by decide) |>.2.2⟩

/-- Claim C7: each routing-agent tool passes the very accumulator reached
through ctx.usage to the nested sub-agent run, and accumulating any
sequence of usage deltas into such an accumulator never decreases any
counter. -/
theorem C7_usage_shared_and_monotone :
    (∀ (ctx : RunContext) (q : String),
      (knowledge_tool ctx q).usageRef = ctx.usageRef ∧
      (retrieval_tool ctx q).usageRef = ctx.usageRef ∧
      (metrics_tool ctx q).usageRef = ctx.usageRef ∧
      (knowledge_tool ctx q).query = q ∧
      (retrieval_tool ctx q).query = q ∧
      (metrics_tool ctx q).query = q) ∧
    (∀ (u : Usage) (deltas : List Usage),
      u.requests ≤ (accumulateUsage u deltas).requests ∧
      u.request_tokens ≤ (accumulateUsage u deltas).request_tokens ∧
      u.response_tokens ≤ (accumulateUsage u deltas).response_tokens ∧
      u.total_tokens ≤ (accumulateUsage u deltas).total_tokens) :=
  ⟨fun _ _ => ⟨rfl, rfl, rfl, rfl, rfl, rfl⟩, fun u ds => accumulateUsage_le ds u⟩

/-- Claim C9: when the spawned command completes, each retrieval handler
returns exactly the captured stdout bytes; the exit status and stderr of
the completed process are arbitrary here and do not influence the result. -/
theorem C9_exit_status_discarded (env : Env) (kind name ns : String)
    (p : CompletedProcess)
    (havail : ∀ c, env.avail c = true)
    (hexec : ∀ r, env.exec r = ExecOutcome.completed p) :
    get_namespaces env = (Except.ok (PyVal.bytes p.stdout), [ get_namespaces_req ]) ∧
    get_object_cluster_wide_list env kind =
      (Except.ok (PyVal.bytes p.stdout), [ get_object_cluster_wide_list_req kind ]) ∧
    get_object_namespace_list env kind ns =
      (Except.ok (PyVal.bytes p.stdout), [ get_object_namespace_list_req kind ns ]) ∧
    get_nonrunning_pods env = (Except.ok (PyVal.bytes p.stdout), [ get_nonrunning_pods_req ]) ∧
    get_object_details env ns kind name =
      (Except.ok (PyVal.bytes p.stdout), [ get_object_details_req ns kind name ]) ∧
    get_pod_list env ns = (Except.ok (PyVal.bytes p.stdout), [ get_pod_list_req ns ]) := by
  simp [get_namespaces, get_object_cluster_wide_list, get_object_namespace_list,
        get_nonrunning_pods, get_object_details, get_pod_list,
        is_command_available, subprocess_run, havail, hexec]

/-- Witness for C9_exit_status_discarded: a command that exits 1 with empty
stdout yields the same empty result as a successful empty listing. -/
theorem C9_exit_status_discarded_witness :
    get_namespaces env_exit1_empty = (Except.ok (PyVal.bytes ""), [ get_namespaces_req ]) ∧
    get_pod_list env_exit1_empty "default" =
      (Except.ok (PyVal.bytes ""), [ get_pod_list_req "default" ]) :=
  ⟨(C9_exit_status_discarded env_exit1_empty "node" "worker1" "default"
      ⟨"", "error text on stderr", 1⟩ (fun _ => rfl) (fun _ => rfl)).1,
   (C9_exit_status_discarded env_exit1_empty "node" "worker1" "default"
      ⟨"", "error text on stderr", 1⟩ (fun _ => rfl) (fun _ => rfl)).2.2.2.2.2⟩

/-- Claim C10: whenever the required commands resolve, get_pod_status and
get_object_health hand the shell exactly the template string with the
arguments substituted verbatim — each argument occurs as a contiguous
uninterpreted substring of the executed shell line. -/
theorem C10_verbatim_shell_substitution (env : Env) (ns pod kind name : String)
    (ns? : Option String)
    (havail : ∀ c, env.avail c = true) :
    (get_pod_status env ns pod).snd =
      [ ⟨Command.shell (spec_pod_status_template ns pod), 2⟩ ] ∧
    (get_object_health env kind name ns?).snd =
      [ ⟨Command.shell (spec_health_template kind name ns?), 2⟩ ] ∧
    (∃ a b, spec_pod_status_template ns pod = a ++ ns ++ b) ∧
    (∃ a b, spec_pod_status_template ns pod = a ++ pod ++ b) ∧
    (∃ a b, spec_health_template kind name ns? = a ++ kind ++ b) ∧
    (∃ a b, spec_health_template kind name ns? = a ++ name ++ b) := by
  refine ⟨?_, ?_, ?_, ?_, ?_, ?_⟩
  · rw [get_pod_status_snd_avail env ns pod (havail "oc") (havail "yq")]
    rfl
  · rw [get_object_health_snd_avail env kind name ns? (havail "kube-health")]
    rfl
  · exact ⟨"oc get pod -n ",
           " " ++ pod ++ " -o jsonpath=\x27\x7b.status\x7d\x27 | yq -p json -o yaml",
           by simp [spec_pod_status_template, str_append_assoc]⟩
  · exact ⟨"oc get pod -n " ++ ns ++ " ",
           " -o jsonpath=\x27\x7b.status\x7d\x27 | yq -p json -o yaml",
           by simp [spec_pod_status_template, str_append_assoc]⟩
  · cases ns? with
    | none =>
      exact ⟨"kube-health -H ", "/" ++ name, by simp [spec_health_template, str_append_assoc]⟩
    | some ns2 =>
      exact ⟨"kube-health -n " ++ ns2 ++ " -H ", "/" ++ name,
             by simp [spec_health_template, str_append_assoc]⟩
  · cases ns? with
    | none =>
      exact ⟨"kube-health -H " ++ kind ++ "/", "", by simp [spec_health_template, str_append_assoc]⟩
    | some ns2 =>
      exact ⟨"kube-health -n " ++ ns2 ++ " -H " ++ kind ++ "/", "",
             by simp [spec_health_template, str_append_assoc]⟩

/-- Witness for C10_verbatim_shell_substitution: shell metacharacters in the
pod argument reach the executed shell line untouched. -/
theorem C10_verbatim_shell_substitution_witness :
    (get_pod_status env_two_lines "default" "mypod; echo x").snd =
      [ ⟨Command.shell (spec_pod_status_template "default" "mypod; echo x"), 2⟩ ] ∧
    (get_object_health env_two_lines "node" "worker1" Option.none).snd =
      [ ⟨Command.shell (spec_health_template "node" "worker1" Option.none), 2⟩ ] :=
  ⟨(C10_verbatim_shell_substitution env_two_lines "default" "mypod; echo x"
      "node" "worker1" Option.none (fun _ => rfl)).1,
   (C10_verbatim_shell_substitution env_two_lines "default" "mypod; echo x"
      "node" "worker1" Option.none (fun _ => rfl)).2.1⟩
